import Mathlib

set_option maxHeartbeats 1000000
set_option maxRecDepth 8000
set_option linter.unusedVariables false

open scoped Classical

noncomputable section

/-!
Shallow embedding of `src/DiscreteStellarFeedback.cpp` (Shadowfax,
`DiscreteStellarFeedback` module).

C++ `double` arithmetic is embedded as real arithmetic (`ℝ`); `log10` is
`Real.logb 10`, `pow` is `Real.rpow`, `exp` is `Real.exp`.  The external GSL
adaptive quadrature routine `GSL::qag` is out of scope of the module (the spec
lists it as a collaborator interface); it is embedded as a function parameter
`qag : (ℝ → ℝ) → ℝ → ℝ → ℝ` of the initialization routine, together with the
contract `QuadContract` stating that it returns the exact interval integral
(the idealization of its advertised `1.e-8`-tolerance contract).
-/

/-- Interpolation kinds used by the module: `GSL::TypeGSLLinearInterpolator`
and `GSL::TypeGSLCubicSplineInterpolator`. -/
inductive InterpKind where
  | linear : InterpKind
  | cubic : InterpKind

/-- The knot table handed to `GSL::GSLInterpolator::create(kind, xs, ys, n)`:
the interpolation kind and the two knot arrays. -/
structure SplineData where
  kind : InterpKind
  xs : List ℝ
  ys : List ℝ

/-- `GSL::GSLInterpolator::create(kind, xs, ys, n)`: wraps the knot arrays. -/
def SplineData.create (kind : InterpKind) (xs ys : List ℝ) : SplineData :=
  ⟨kind, xs, ys⟩

/-- Modelled from the spec: evaluation of the repository's linear GSL
interpolator (`GSL::GSLInterpolator::eval` for
`GSL::TypeGSLLinearInterpolator`), whose implementation is not under `src/`
(the spec's §6 interpolator contract): piecewise-linear interpolation through
the knot table; exactly at a knot abscissa it returns that knot's ordinate.
Only the linear interpolator's behavior is relied on by any claim. -/
def linEval : List (ℝ × ℝ) → ℝ → ℝ
  | [], _ => 0
  | [p], _ => p.2
  | p :: q :: rest, x =>
    if x ≤ p.1 then p.2
    else if x ≤ q.1 then p.2 + (q.2 - p.2) * (x - p.1) / (q.1 - p.1)
    else linEval (q :: rest) x

/-- Modelled from the spec: `GSL::GSLInterpolator::eval` on a knot table (see
`linEval`). -/
def SplineData.eval (s : SplineData) (x : ℝ) : ℝ :=
  linEval (s.xs.zip s.ys) x

/-- `DiscreteStellarFeedback::PopII_IMF_sub1`: low-mass part of the Chabrier
IMF. -/
def Param.PopII_IMF_sub1 (m : ℝ) : ℝ :=
  let a := Real.logb 10 m + 1.1024
  Real.exp (-0.5 * (a * a / 0.4761)) / m

/-- `DiscreteStellarFeedback::PopII_IMF` (Chabrier IMF), with the member
variables `_PopII_M_low`, `_PopII_M_upp`, `_PopII_fac_IMF` passed explicitly. -/
def Param.PopII_IMF (M_low M_upp fac_IMF m : ℝ) : ℝ :=
  if M_low < m ∧ m < M_upp then
    if m < 1 then fac_IMF * Param.PopII_IMF_sub1 m
    else m ^ (-2.3 : ℝ)
  else 0

/-- `DiscreteStellarFeedback::PopII_mIMF`: Chabrier IMF mass integrand. -/
def Param.PopII_mIMF (M_low M_upp fac_IMF m : ℝ) : ℝ :=
  m * Param.PopII_IMF M_low M_upp fac_IMF m

/-- `DiscreteStellarFeedback::PopII_SNIa_delay1`: first part of the SNIa delay
time distribution, with members `_PopII_SNIa_delay_norm1`,
`_PopII_SNIa_delay_mu`, `_PopII_SNIa_delay_sigma` passed explicitly. -/
def Param.PopII_SNIa_delay1 (norm1 mu sigma t : ℝ) : ℝ :=
  let a := (t - mu) / sigma
  norm1 * (t - 0.03) * (13.6 - t) * Real.exp (-0.5 * a * a)

/-- `DiscreteStellarFeedback::PopII_SNIa_delay2`: second part of the SNIa delay
time distribution, with member `_PopII_SNIa_delay_norm2` passed explicitly. -/
def Param.PopII_SNIa_delay2 (norm2 t : ℝ) : ℝ :=
  let delay :=
    if t < 0.25 then norm2 * (Real.exp ((t - 0.25) / 0.1) - Real.exp ((0.03 - 0.25) / 0.1))
    else norm2 * (Real.exp ((0.25 - t) / 7) - Real.exp ((0.03 - 0.25) / 0.1))
  if delay > 0 then delay else 0

/-- The local `delay` value computed inside `PopII_SNIa_delay2` before the
final positivity clamp (named here so its continuity can be stated). -/
def delay2Inner (norm2 t : ℝ) : ℝ :=
  if t < 0.25 then norm2 * (Real.exp ((t - 0.25) / 0.1) - Real.exp ((0.03 - 0.25) / 0.1))
  else norm2 * (Real.exp ((0.25 - t) / 7) - Real.exp ((0.03 - 0.25) / 0.1))

/-- `DiscreteStellarFeedback::PopII_SNIa_delay`: full SNIa delay time
distribution, the sum of the two parts. -/
def Param.PopII_SNIa_delay (norm1 norm2 mu sigma t : ℝ) : ℝ :=
  Param.PopII_SNIa_delay1 norm1 mu sigma t + Param.PopII_SNIa_delay2 norm2 t

/-- `DiscreteStellarFeedback::PopIII_IMF` (Susa PopIII IMF), with members
passed explicitly. -/
def Param.PopIII_IMF (M_low M_upp M1 M2 M3 fac pw m : ℝ) : ℝ :=
  if M_low < m ∧ m < M_upp then
    let logm := Real.logb 10 m
    let IMF0 := if logm < M2 then 0.5 * (logm - M1) / (M2 - M1)
      else 0.5 * (logm + M3 - 2 * M2) / (M3 - M2)
    let IMF := fac * (IMF0 * (1 - IMF0)) ^ pw
    if IMF > 0 then IMF / m else 0
  else 0

/-- `DiscreteStellarFeedback::PopIII_mIMF`: Susa PopIII IMF mass integrand. -/
def Param.PopIII_mIMF (M_low M_upp M1 M2 M3 fac pw m : ℝ) : ℝ :=
  m * Param.PopIII_IMF M_low M_upp M1 M2 M3 fac pw m

/-- `DiscreteStellarFeedback::PopIII_E_SN`: energy of a PopIII SN of mass `m`,
looked up in the energy spline (member `_PopIII_E_SN_spline` passed
explicitly). -/
def PopIII_E_SN_of (spline : SplineData) (m : ℝ) : ℝ :=
  1e51 * spline.eval m

/-- `DiscreteStellarFeedback::PopIII_EIMF`: integrand of the PopIII IMF energy
integral. -/
def PopIII_EIMF_of (spline : SplineData) (M_low M_upp M1 M2 M3 fac pw m : ℝ) : ℝ :=
  PopIII_E_SN_of spline m * Param.PopIII_IMF M_low M_upp M1 M2 M3 fac pw m

/-- The grid-filling `for` loops of `initialize()`
(`for(t = t0; t < bound; t += step) { ... }`), embedded with an explicit fuel
bound (the capacity left in the fixed-size C++ array); the lemma
`gridLoop_eq_map_range` discharges the fuel against the loop guard, showing the
loop runs for exactly the number of iterations the source's array layout
assumes. -/
def gridLoop (bound step : ℝ) : ℕ → ℝ → List ℝ
  | 0, _ => []
  | fuel + 1, t => if t < bound then t :: gridLoop bound step fuel (t + step) else []

/-- Literal knot masses of the PopII lifetime spline (`PopII_lifetime_ms`). -/
def popIILifetimeMs : List ℝ :=
  [0.65, 0.7, 0.75, 0.8, 0.85, 0.9, 0.95, 1, 1.05, 1.1, 1.15,
   1.2, 1.25, 1.3, 1.35, 1.4, 1.45, 1.5, 1.55, 1.6, 1.65, 1.7,
   1.75, 1.8, 1.85, 1.9, 1.95, 2, 2.05, 2.1, 2.15, 2.2, 2.25,
   2.3, 2.35, 2.4, 2.6, 2.8, 3, 3.2, 3.4, 3.6, 3.8, 4,
   4.2, 4.4, 4.6, 4.8, 5, 5.2, 5.4, 5.6, 5.8, 6, 6.2,
   6.4, 7, 8, 9, 10, 11, 12, 14, 16, 18, 20,
   24, 28, 30, 40, 45, 50, 55, 60, 65, 70, 75,
   80, 90, 95, 100, 120, 150, 200, 250, 300, 350]

/-- Literal knot lifetimes of the PopII lifetime spline (`PopII_lifetime_ts`). -/
def popIILifetimeTs : List ℝ :=
  [10.452, 10.3415, 10.2362, 10.139, 10.0468, 9.95885, 9.87605,
   9.79803, 9.72399, 9.65217, 9.58335, 9.52138, 9.46703, 9.42591,
   9.38266, 9.33495, 9.28953, 9.24572, 9.20422, 9.16552, 9.12806,
   9.0921, 9.05728, 9.02345, 8.99101, 8.95935, 8.92926, 8.90003,
   8.87177, 8.84446, 8.81782, 8.79194, 8.7669, 8.74255, 8.7187,
   8.69608, 8.60937, 8.53033, 8.45752, 8.39064, 8.32889, 8.27122,
   8.21763, 8.16709, 8.12, 8.07545, 8.03334, 7.99336, 7.95561,
   7.91966, 7.88551, 7.85298, 7.82191, 7.79234, 7.76385, 7.73664,
   7.66115, 7.55343, 7.46282, 7.38582, 7.31927, 7.26113, 7.16375,
   7.08681, 7.02325, 6.97053, 6.88722, 6.82377, 6.79741, 6.72284,
   6.68824, 6.65918, 6.63473, 6.61362, 6.59507, 6.57899, 6.56445,
   6.55241, 6.52965, 6.52028, 6.5111, 6.48241, 6.45054, 6.41528,
   6.3914, 6.37373, 6.36056]

/-- Literal knot masses of the PopIII lifetime spline (`PopIII_lifetime_ms`). -/
def popIIILifetimeMs : List ℝ :=
  [0.7, 0.8, 0.9, 1, 1.1, 1.2, 1.3, 1.4,
   1.5, 1.6, 1.8, 2, 2.5, 3, 4, 5,
   10, 15, 20, 30, 50, 70, 100, 500]

/-- Literal knot lifetimes of the PopIII lifetime spline (`PopIII_lifetime_ts`). -/
def popIIILifetimeTs : List ℝ :=
  [1.32077, 1.13354, 0.947924, 0.78533, 0.637463, 0.516384,
   0.399708, 0.289454, 0.193159, 0.100413, -0.062413, -0.208425,
   -0.493919, -0.702468, -0.979499, -1.18585, -1.75003, -1.96392,
   -2.08837, -2.24245, -2.39566, -2.47468, -2.54276, -2.89056]

/-- Literal knot masses of the PopIII SN energy spline (local `ms` in
`initialize()`, Woosley energy data), including the near-duplicate abscissa
pair at 140 solar masses. -/
def popIIIEnergyMs : List ℝ :=
  [0.7, 10, 35, 40, 50, 60,
   70, 80, 90, 100, 140, 140 + 1e-10,
   150, 170, 200, 270, 300, 500]

/-- Literal knot energies of the PopIII SN energy spline (local `Es` in
`initialize()`, units of `1e51` erg). -/
def popIIIEnergyEs : List ℝ :=
  [0, 1, 1, 1, 1, 1, 1, 1, 1,
   1, 1, 9, 16, 28, 44, 49, 50, 50]

/-- The state of a `DiscreteStellarFeedback` object: every member variable of
the C++ class, in the order traversed by `dump`/the restart constructor. -/
structure DSF where
  _PopII_M_low : ℝ
  _PopII_M_upp : ℝ
  _PopII_fac_IMF : ℝ
  _PopII_M_SNII_low : ℝ
  _PopII_M_SNIa_low : ℝ
  _PopII_M_SNIa_upp : ℝ
  _PopII_SNIa_delay_mu : ℝ
  _PopII_SNIa_delay_sigma : ℝ
  _PopII_SNIa_delay_norm1 : ℝ
  _PopII_SNIa_delay_norm2 : ℝ
  _PopIII_cutoff : ℝ
  _PopIII_M_low : ℝ
  _PopIII_M_upp : ℝ
  _PopIII_M_SN_low : ℝ
  _PopIII_M1 : ℝ
  _PopIII_M2 : ℝ
  _PopIII_M3 : ℝ
  _PopIII_fac : ℝ
  _PopIII_pw : ℝ
  _PopII_Mint : ℝ
  _PopII_NIIint : ℝ
  _PopII_NIaint : ℝ
  _PopIII_Mint : ℝ
  _PopIII_Nint : ℝ
  _PopIII_Eint : ℝ
  _PopII_SNIa_delay_spline : SplineData
  _PopIII_IMF_spline : SplineData
  _PopII_lifetime_spline : SplineData
  _PopIII_lifetime_spline : SplineData
  _PopIII_E_SN_spline : SplineData
  _PopII_SNII_energy : ℝ
  _PopII_SNII_mass : ℝ
  _PopII_SNII_metals : ℝ
  _PopII_SNII_Fe : ℝ
  _PopII_SNII_Mg : ℝ
  _PopII_SNIa_energy : ℝ
  _PopII_SNIa_mass : ℝ
  _PopII_SNIa_metals : ℝ
  _PopII_SNIa_Fe : ℝ
  _PopII_SNIa_Mg : ℝ
  _PopII_SW_energy : ℝ
  _PopII_SW_end_time : ℝ
  _PopIII_SN_energy : ℝ
  _PopIII_SN_mass : ℝ
  _PopIII_SN_metals : ℝ
  _PopIII_SN_Fe : ℝ
  _PopIII_SN_Mg : ℝ
  _PopIII_SW_energy : ℝ
  _PopIII_SW_end_time : ℝ

/-- The unnormalized first DTD component integrated during normalization:
`PopII_SNIa_delay1` with `_PopII_SNIa_delay_norm1 = 1` (its value when the
normalization integral runs), `mu = 0.05`, `sigma = 0.01`. -/
def delay1Unnorm : ℝ → ℝ := fun t => Param.PopII_SNIa_delay1 1 0.05 0.01 t

/-- The unnormalized second DTD component integrated during normalization:
`PopII_SNIa_delay2` with `_PopII_SNIa_delay_norm2 = 1`. -/
def delay2Unnorm : ℝ → ℝ := fun t => Param.PopII_SNIa_delay2 1 t

/-- `_PopII_SNIa_delay_norm1 = 0.4 / dint` as computed in `initialize()`. -/
def dtdNorm1 (qag : (ℝ → ℝ) → ℝ → ℝ → ℝ) : ℝ :=
  0.4 / qag delay1Unnorm 0.03 13.6

/-- `_PopII_SNIa_delay_norm2 = 0.6 / dint` as computed in `initialize()`. -/
def dtdNorm2 (qag : (ℝ → ℝ) → ℝ → ℝ → ℝ) : ℝ :=
  0.6 / qag delay2Unnorm 0.03 13.6

/-- The normalized combined DTD integrated when building the cumulative delay
spline (`PopII_SNIa_delay` with the final member values). -/
def delayNormed (qag : (ℝ → ℝ) → ℝ → ℝ → ℝ) : ℝ → ℝ :=
  fun t => Param.PopII_SNIa_delay (dtdNorm1 qag) (dtdNorm2 qag) 0.05 0.01 t

/-- The PopIII IMF with the member values fixed in `initialize()`. -/
def popIII_IMF_fixed : ℝ → ℝ := fun m =>
  Param.PopIII_IMF 0.7 500 (Real.logb 10 0.7) 1.51130759 (Real.logb 10 500)
    708.92544818 2.8008394 m

/-- The local `IMF0` of `PopIII_IMF` ("tent" coordinate) at the member values
fixed in `initialize()` (named so measurability/boundedness can be stated). -/
def popIIITent (m : ℝ) : ℝ :=
  if Real.logb 10 m < 1.51130759 then
    0.5 * (Real.logb 10 m - Real.logb 10 0.7) / (1.51130759 - Real.logb 10 0.7)
  else
    0.5 * (Real.logb 10 m + Real.logb 10 500 - 2 * 1.51130759) /
      (Real.logb 10 500 - 1.51130759)

/-- The local `IMF` value of `PopIII_IMF` before the positivity clamp and the
division by `m`, at the member values fixed in `initialize()`. -/
def popIIIVal (m : ℝ) : ℝ :=
  708.92544818 * (popIIITent m * (1 - popIIITent m)) ^ (2.8008394 : ℝ)

/-- `ts` array of the cumulative SNIa delay spline: the loop fills slots
`1..27`, slots 28/29 are pinned to `log10(13.6)`/`log10(13.8)`, and the source
then executes `ts[0] += cumul_delay[1]`, so slot 0 holds `-2` plus the first
loop-computed cumulative value. -/
def delayTs (qag : (ℝ → ℝ) → ℝ → ℝ → ℝ) : List ℝ :=
  (-2 + ((gridLoop (Real.logb 10 13.6) 0.1 29 (Real.logb 10 0.03)).map
      (fun t => qag (delayNormed qag) 0.03 ((10 : ℝ) ^ t))).headI) ::
    gridLoop (Real.logb 10 13.6) 0.1 29 (Real.logb 10 0.03) ++
      [Real.logb 10 13.6, Real.logb 10 13.8]

/-- `cumul_delay` array of the cumulative SNIa delay spline: slot 0 holds `0`,
slots `1..27` the loop-computed cumulative integrals, slots 28/29 are pinned to
`1`. -/
def delayCumul (qag : (ℝ → ℝ) → ℝ → ℝ → ℝ) : List ℝ :=
  (0 : ℝ) ::
    ((gridLoop (Real.logb 10 13.6) 0.1 29 (Real.logb 10 0.03)).map
      (fun t => qag (delayNormed qag) 0.03 ((10 : ℝ) ^ t))) ++ [1, 1]

/-- `PopIII_IMF_ms` array of the cumulative PopIII IMF spline: slot 0 holds
`-2`, slots `1..286` the loop grid, slots 287/288 are pinned to
`log10(_PopIII_M_upp)` and `3`. -/
def popIIIMs : List ℝ :=
  (-2 : ℝ) :: gridLoop (Real.logb 10 500) 0.01 288 (Real.logb 10 0.7) ++
    [Real.logb 10 500, 3]

/-- `PopIII_IMF_IMFs` array of the cumulative PopIII IMF spline: slot 0 holds
the integral of the IMF from `0` to `_PopIII_M_upp`, slots `1..286` the
loop-computed survival integrals, slots 287/288 are pinned to `0`. -/
def popIIIIMFs (qag : (ℝ → ℝ) → ℝ → ℝ → ℝ) : List ℝ :=
  qag popIII_IMF_fixed 0 500 ::
    ((gridLoop (Real.logb 10 500) 0.01 288 (Real.logb 10 0.7)).map
      (fun m => qag popIII_IMF_fixed ((10 : ℝ) ^ m) 500)) ++ [0, 0]

/-- `DiscreteStellarFeedback::initialize()`, parametrized by the external
quadrature integrator `qag`.  Every member is set to the value it holds at the
end of the C++ routine, in source order; each quadrature call receives the
member values current at that point of the source (in particular the two DTD
normalization integrals run with `norm1 = norm2 = 1`). -/
def initModel (qag : (ℝ → ℝ) → ℝ → ℝ → ℝ) : DSF :=
  let PopII_M_low : ℝ := 0.07
  let PopII_M_upp : ℝ := 100
  let PopII_M_SNII_low : ℝ := 8
  let PopII_M_SNIa_low : ℝ := 3
  let PopII_M_SNIa_upp : ℝ := 8
  let PopII_fac_IMF : ℝ := 1 / Param.PopII_IMF_sub1 1
  let PopIII_M_low : ℝ := 0.7
  let PopIII_M_upp : ℝ := 500
  let PopIII_M_SN_low : ℝ := 10
  let PopIII_M1 : ℝ := Real.logb 10 PopIII_M_low
  let PopIII_M2 : ℝ := 1.51130759
  let PopIII_M3 : ℝ := Real.logb 10 PopIII_M_upp
  let PopIII_fac : ℝ := 708.92544818
  let PopIII_pw : ℝ := 2.8008394
  let popIIIFun := fun m =>
    Param.PopIII_IMF PopIII_M_low PopIII_M_upp PopIII_M1 PopIII_M2 PopIII_M3 PopIII_fac PopIII_pw m
  let PopIII_E_SN_spline := SplineData.create .linear popIIIEnergyMs popIIIEnergyEs
  { _PopII_M_low := PopII_M_low
    _PopII_M_upp := PopII_M_upp
    _PopII_fac_IMF := PopII_fac_IMF
    _PopII_M_SNII_low := PopII_M_SNII_low
    _PopII_M_SNIa_low := PopII_M_SNIa_low
    _PopII_M_SNIa_upp := PopII_M_SNIa_upp
    _PopII_SNIa_delay_mu := 0.05
    _PopII_SNIa_delay_sigma := 0.01
    _PopII_SNIa_delay_norm1 := dtdNorm1 qag
    _PopII_SNIa_delay_norm2 := dtdNorm2 qag
    _PopIII_cutoff := -5
    _PopIII_M_low := PopIII_M_low
    _PopIII_M_upp := PopIII_M_upp
    _PopIII_M_SN_low := PopIII_M_SN_low
    _PopIII_M1 := PopIII_M1
    _PopIII_M2 := PopIII_M2
    _PopIII_M3 := PopIII_M3
    _PopIII_fac := PopIII_fac
    _PopIII_pw := PopIII_pw
    _PopII_Mint := qag (fun m => Param.PopII_mIMF PopII_M_low PopII_M_upp PopII_fac_IMF m)
      PopII_M_low PopII_M_upp
    _PopII_NIIint := qag (fun m => Param.PopII_IMF PopII_M_low PopII_M_upp PopII_fac_IMF m)
      PopII_M_SNII_low PopII_M_upp
    _PopII_NIaint := qag (fun m => Param.PopII_IMF PopII_M_low PopII_M_upp PopII_fac_IMF m)
      PopII_M_SNIa_low PopII_M_SNIa_upp
    _PopIII_Mint := qag (fun m =>
      Param.PopIII_mIMF PopIII_M_low PopIII_M_upp PopIII_M1 PopIII_M2 PopIII_M3 PopIII_fac PopIII_pw m)
      PopIII_M_low PopIII_M_upp
    _PopIII_Nint := qag popIIIFun PopIII_M_SN_low PopIII_M_upp
    _PopIII_Eint := qag (fun m =>
      PopIII_EIMF_of PopIII_E_SN_spline PopIII_M_low PopIII_M_upp PopIII_M1 PopIII_M2 PopIII_M3
        PopIII_fac PopIII_pw m) PopIII_M_SN_low PopIII_M_upp
    _PopII_SNIa_delay_spline := SplineData.create .cubic (delayTs qag) (delayCumul qag)
    _PopIII_IMF_spline := SplineData.create .linear popIIIMs (popIIIIMFs qag)
    _PopII_lifetime_spline := SplineData.create .cubic popIILifetimeMs popIILifetimeTs
    _PopIII_lifetime_spline := SplineData.create .cubic popIIILifetimeMs popIIILifetimeTs
    _PopIII_E_SN_spline := PopIII_E_SN_spline
    _PopII_SNII_energy := 1e51 * 0.7
    _PopII_SNII_mass := 0.191445322565
    _PopII_SNII_metals := 0.0241439721018
    _PopII_SNII_Fe := 0.000932719658516
    _PopII_SNII_Mg := 0.00151412640705
    _PopII_SNIa_energy := 1e51 * 0.7
    _PopII_SNIa_mass := 0.00655147325196
    _PopII_SNIa_metals := 0.00655147325196
    _PopII_SNIa_Fe := 0.00165100587997
    _PopII_SNIa_Mg := 0.000257789470044
    _PopII_SW_energy := 1e50 * 0.7 / 31.0
    _PopII_SW_end_time := 31.0
    _PopIII_SN_energy := qag (fun m =>
      PopIII_EIMF_of PopIII_E_SN_spline PopIII_M_low PopIII_M_upp PopIII_M1 PopIII_M2 PopIII_M3
        PopIII_fac PopIII_pw m) PopIII_M_SN_low PopIII_M_upp * 0.7
    _PopIII_SN_mass := 0.45
    _PopIII_SN_metals := 0.026
    _PopIII_SN_Fe := 0.0000932719658516
    _PopIII_SN_Mg := 0.000151412640705
    _PopIII_SW_energy := 1e51 * 0.7 / 16.7
    _PopIII_SW_end_time := 16.7 }

/-- Member-function view of `PopII_IMF` on a model state. -/
def DSF.PopII_IMF (s : DSF) (m : ℝ) : ℝ :=
  Param.PopII_IMF s._PopII_M_low s._PopII_M_upp s._PopII_fac_IMF m

/-- Member-function view of `PopIII_IMF` on a model state. -/
def DSF.PopIII_IMF (s : DSF) (m : ℝ) : ℝ :=
  Param.PopIII_IMF s._PopIII_M_low s._PopIII_M_upp s._PopIII_M1 s._PopIII_M2 s._PopIII_M3
    s._PopIII_fac s._PopIII_pw m

/-- Member-function view of `PopII_SNIa_delay1` on a model state. -/
def DSF.PopII_SNIa_delay1 (s : DSF) (t : ℝ) : ℝ :=
  Param.PopII_SNIa_delay1 s._PopII_SNIa_delay_norm1 s._PopII_SNIa_delay_mu s._PopII_SNIa_delay_sigma t

/-- Member-function view of `PopII_SNIa_delay2` on a model state. -/
def DSF.PopII_SNIa_delay2 (s : DSF) (t : ℝ) : ℝ :=
  Param.PopII_SNIa_delay2 s._PopII_SNIa_delay_norm2 t

/-- Member-function view of `PopII_SNIa_delay` on a model state. -/
def DSF.PopII_SNIa_delay (s : DSF) (t : ℝ) : ℝ :=
  Param.PopII_SNIa_delay s._PopII_SNIa_delay_norm1 s._PopII_SNIa_delay_norm2
    s._PopII_SNIa_delay_mu s._PopII_SNIa_delay_sigma t

/-- Member-function view of `PopIII_E_SN` on a model state. -/
def DSF.PopIII_E_SN (s : DSF) (m : ℝ) : ℝ :=
  1e51 * s._PopIII_E_SN_spline.eval m

/-- `DiscreteStellarFeedback::do_feedback`: the body is empty (`// needs to be
implemented`), so the model state, the star particle and the particle
collection are returned unchanged.  The external `StarParticle` and
`ParticleVector` types are opaque type parameters. -/
def do_feedback {StarParticle ParticleVector : Type} (s : DSF) (star : StarParticle)
    (particles : ParticleVector) (dt : ℝ) : DSF × StarParticle × ParticleVector :=
  (s, star, particles)

/-- One sequential record in a `RestartFile`: either a scalar written by
`RestartFile::write`, or a whole spline written by
`GSLInterpolator::dump`. -/
inductive RFEntry where
  | scalar : ℝ → RFEntry
  | spline : SplineData → RFEntry

/-- `DiscreteStellarFeedback::dump`: the exact ordered sequence of scalar
writes and spline dumps of the source. -/
def DSF.dump (s : DSF) : List RFEntry :=
  [.scalar s._PopII_M_low,
   .scalar s._PopII_M_upp,
   .scalar s._PopII_fac_IMF,
   .scalar s._PopII_M_SNII_low,
   .scalar s._PopII_M_SNIa_low,
   .scalar s._PopII_M_SNIa_upp,
   .scalar s._PopII_SNIa_delay_mu,
   .scalar s._PopII_SNIa_delay_sigma,
   .scalar s._PopII_SNIa_delay_norm1,
   .scalar s._PopII_SNIa_delay_norm2,
   .scalar s._PopIII_cutoff,
   .scalar s._PopIII_M_low,
   .scalar s._PopIII_M_upp,
   .scalar s._PopIII_M_SN_low,
   .scalar s._PopIII_M1,
   .scalar s._PopIII_M2,
   .scalar s._PopIII_M3,
   .scalar s._PopIII_fac,
   .scalar s._PopIII_pw,
   .scalar s._PopII_Mint,
   .scalar s._PopII_NIIint,
   .scalar s._PopII_NIaint,
   .scalar s._PopIII_Mint,
   .scalar s._PopIII_Nint,
   .scalar s._PopIII_Eint,
   .spline s._PopII_SNIa_delay_spline,
   .spline s._PopIII_IMF_spline,
   .spline s._PopII_lifetime_spline,
   .spline s._PopIII_lifetime_spline,
   .spline s._PopIII_E_SN_spline,
   .scalar s._PopII_SNII_energy,
   .scalar s._PopII_SNII_mass,
   .scalar s._PopII_SNII_metals,
   .scalar s._PopII_SNII_Fe,
   .scalar s._PopII_SNII_Mg,
   .scalar s._PopII_SNIa_energy,
   .scalar s._PopII_SNIa_mass,
   .scalar s._PopII_SNIa_metals,
   .scalar s._PopII_SNIa_Fe,
   .scalar s._PopII_SNIa_Mg,
   .scalar s._PopII_SW_energy,
   .scalar s._PopII_SW_end_time,
   .scalar s._PopIII_SN_energy,
   .scalar s._PopIII_SN_mass,
   .scalar s._PopIII_SN_metals,
   .scalar s._PopIII_SN_Fe,
   .scalar s._PopIII_SN_Mg,
   .scalar s._PopIII_SW_energy,
   .scalar s._PopIII_SW_end_time]

/-- `DiscreteStellarFeedback::DiscreteStellarFeedback(RestartFile&)` (the
restart constructor): sequential reads in the exact order of the source;
returns `none` on a malformed checkpoint. -/
def restore : List RFEntry → Option DSF
  | RFEntry.scalar a1 :: RFEntry.scalar a2 :: RFEntry.scalar a3 :: RFEntry.scalar a4 ::
    RFEntry.scalar a5 :: RFEntry.scalar a6 :: RFEntry.scalar a7 :: RFEntry.scalar a8 ::
    RFEntry.scalar a9 :: RFEntry.scalar a10 :: RFEntry.scalar a11 :: RFEntry.scalar a12 ::
    RFEntry.scalar a13 :: RFEntry.scalar a14 :: RFEntry.scalar a15 :: RFEntry.scalar a16 ::
    RFEntry.scalar a17 :: RFEntry.scalar a18 :: RFEntry.scalar a19 :: RFEntry.scalar a20 ::
    RFEntry.scalar a21 :: RFEntry.scalar a22 :: RFEntry.scalar a23 :: RFEntry.scalar a24 ::
    RFEntry.scalar a25 :: RFEntry.spline s1 :: RFEntry.spline s2 :: RFEntry.spline s3 ::
    RFEntry.spline s4 :: RFEntry.spline s5 ::
    RFEntry.scalar b1 :: RFEntry.scalar b2 :: RFEntry.scalar b3 :: RFEntry.scalar b4 ::
    RFEntry.scalar b5 :: RFEntry.scalar b6 :: RFEntry.scalar b7 :: RFEntry.scalar b8 ::
    RFEntry.scalar b9 :: RFEntry.scalar b10 :: RFEntry.scalar b11 :: RFEntry.scalar b12 ::
    RFEntry.scalar b13 :: RFEntry.scalar b14 :: RFEntry.scalar b15 :: RFEntry.scalar b16 ::
    RFEntry.scalar b17 :: RFEntry.scalar b18 :: RFEntry.scalar b19 :: [] =>
    some ⟨a1, a2, a3, a4, a5, a6, a7, a8, a9, a10, a11, a12, a13, a14, a15, a16,
      a17, a18, a19, a20, a21, a22, a23, a24, a25, s1, s2, s3, s4, s5,
      b1, b2, b3, b4, b5, b6, b7, b8, b9, b10, b11, b12, b13, b14, b15, b16,
      b17, b18, b19⟩
  | _ => none

/-- The idealized quadrature integrator: exact interval integration. -/
def intExact : (ℝ → ℝ) → ℝ → ℝ → ℝ := fun f a b => ∫ x in a..b, f x

/-- The quadrature integrator's contract (spec §6), idealized to zero
tolerance: it returns the interval integral. -/
def QuadContract (qag : (ℝ → ℝ) → ℝ → ℝ → ℝ) : Prop :=
  ∀ f a b, qag f a b = ∫ x in a..b, f x



/-! ### Helper lemmas -/

theorem sub1_one_pos : 0 < Param.PopII_IMF_sub1 1 := by
  unfold Param.PopII_IMF_sub1
  positivity

theorem sub1_one_lt_one : Param.PopII_IMF_sub1 1 < 1 := by
  simp only [Param.PopII_IMF_sub1, Real.logb_one, div_one]
  rw [Real.exp_lt_one_iff]
  norm_num

theorem initModel_fac_IMF (qag : (ℝ → ℝ) → ℝ → ℝ → ℝ) :
    (initModel qag)._PopII_fac_IMF = 1 / Param.PopII_IMF_sub1 1 := rfl

theorem initModel_E_SN_spline (qag : (ℝ → ℝ) → ℝ → ℝ → ℝ) :
    (initModel qag)._PopIII_E_SN_spline =
      SplineData.create .linear popIIIEnergyMs popIIIEnergyEs := rfl

theorem popII_IMF_at_one (qag : (ℝ → ℝ) → ℝ → ℝ → ℝ) :
    DSF.PopII_IMF (initModel qag) 1 = 1 := by
  show Param.PopII_IMF 0.07 100 (1 / Param.PopII_IMF_sub1 1) 1 = 1
  unfold Param.PopII_IMF
  rw [if_pos (by norm_num : (0.07:ℝ) < 1 ∧ (1:ℝ) < 100), if_neg (lt_irrefl (1:ℝ)),
    Real.one_rpow]

theorem delay1_at_lower_edge (n mu sigma : ℝ) : Param.PopII_SNIa_delay1 n mu sigma 0.03 = 0 := by
  unfold Param.PopII_SNIa_delay1
  norm_num

theorem delay2_at_lower_edge (n : ℝ) : Param.PopII_SNIa_delay2 n 0.03 = 0 := by
  unfold Param.PopII_SNIa_delay2
  rw [if_pos (by norm_num : (0.03:ℝ) < 0.25)]
  norm_num

/-! ### Claim theorems (first batch) -/

/-- Claim C1: dumping a model state and reconstructing via the restart
constructor reproduces the state exactly (every scalar field and every spline
knot table, hence every spline evaluation), with no quadrature or spline
fitting re-run: `dump` and `restore` traverse the identical ordered sequence
of scalar writes/reads and spline dumps/creates.  Proved for every model state,
in particular every state produced by `initModel`. -/
theorem claim_C1_dump_restore_roundtrip (s : DSF) : restore s.dump = some s := rfl

/-- Claim C9: `do_feedback` performs no computation: for every star particle,
particle collection and time interval it leaves the feedback model state, the
star particle and the particle collection unchanged (the body is an
unimplemented stub). -/
theorem claim_C9_do_feedback_stub {StarParticle ParticleVector : Type} (s : DSF)
    (star : StarParticle) (particles : ParticleVector) (dt : ℝ) :
    do_feedback s star particles dt = (s, star, particles) := rfl

/-- Claim C10: the combined delay-time density `PopII_SNIa_delay` evaluates to
exactly 0 at `t = 0.03` (for every model state): `PopII_SNIa_delay1` carries
the factor `(t - 0.03)`, and in `PopII_SNIa_delay2` the two exponential terms
coincide at `t = 0.03`, so the cumulative delay-time distribution starts from
exactly zero. -/
theorem claim_C10_delay_zero_at_window_start (s : DSF) :
    DSF.PopII_SNIa_delay1 s 0.03 = 0 ∧ DSF.PopII_SNIa_delay2 s 0.03 = 0 ∧
    DSF.PopII_SNIa_delay s 0.03 = 0 := by
  refine ⟨delay1_at_lower_edge _ _ _, delay2_at_lower_edge _, ?_⟩
  unfold DSF.PopII_SNIa_delay Param.PopII_SNIa_delay
  rw [delay1_at_lower_edge, delay2_at_lower_edge, add_zero]

/-- Claim C7 counterexample: in the initialized model (with the exact
integrator), `PopII_IMF(1.0)` does NOT equal `fac_IMF * 1.0`: the code returns
`pow(1, -2.3) = 1` at `m = 1`, while `fac_IMF = 1 / PopII_IMF_sub1(1) > 1`
because `PopII_IMF_sub1(1) = exp(-0.5 * 1.1024^2 / 0.4761) < 1`. -/
theorem claim_C7_counterexample :
    DSF.PopII_IMF (initModel intExact) 1 ≠ (initModel intExact)._PopII_fac_IMF * 1.0 := by
  intro h
  rw [popII_IMF_at_one, initModel_fac_IMF] at h
  have h3 : 1 < 1 / Param.PopII_IMF_sub1 1 := one_lt_one_div sub1_one_pos sub1_one_lt_one
  rw [show (1.0:ℝ) = 1 by norm_num, mul_one] at h
  linarith

/-- Claim C7 (amended): after initialization `PopII_IMF(1.0)` equals
`fac_IMF * PopII_IMF_sub1(1.0) = 1` (not `fac_IMF` itself), i.e. the low-mass
branch `fac_IMF * PopII_IMF_sub1(m)` and the high-mass branch `m^(-2.3)` agree
at `m = 1` (continuity at the power-law/log-normal boundary), where
`fac_IMF = 1 / PopII_IMF_sub1(1)`. -/
theorem claim_C7_amended (qag : (ℝ → ℝ) → ℝ → ℝ → ℝ) :
    DSF.PopII_IMF (initModel qag) 1 = 1 ∧
    (initModel qag)._PopII_fac_IMF = 1 / Param.PopII_IMF_sub1 1 ∧
    (initModel qag)._PopII_fac_IMF * Param.PopII_IMF_sub1 1 = (1:ℝ) ^ (-2.3:ℝ) := by
  refine ⟨popII_IMF_at_one qag, initModel_fac_IMF qag, ?_⟩
  rw [initModel_fac_IMF, Real.one_rpow, one_div, inv_mul_cancel₀ (ne_of_gt sub1_one_pos)]

/-- Claim C8: in the initialized model, `PopIII_E_SN(0.7) = 0` and
`PopIII_E_SN(150) = 16e51`, matching the literal 18-knot energy table scaled
by `1e51` (both probe points are knots; the modelled linear interpolator
returns the knot ordinate there). -/
theorem claim_C8_E_SN_values (qag : (ℝ → ℝ) → ℝ → ℝ → ℝ) :
    DSF.PopIII_E_SN (initModel qag) 0.7 = 0 ∧
    DSF.PopIII_E_SN (initModel qag) 150 = 16e51 := by
  unfold DSF.PopIII_E_SN
  rw [initModel_E_SN_spline]
  constructor
  · norm_num [SplineData.eval, SplineData.create, popIIIEnergyMs, popIIIEnergyEs,
      List.zip_cons_cons, List.zip_nil_right, linEval]
  · norm_num [SplineData.eval, SplineData.create, popIIIEnergyMs, popIIIEnergyEs,
      List.zip_cons_cons, List.zip_nil_right, linEval]



/-! ### Loop unrolling and numeric bounds -/

theorem gridLoop_eq_map_range (bound step : ℝ) (n : ℕ) :
    ∀ (fuel : ℕ) (t0 : ℝ), n ≤ fuel → (∀ k : ℕ, k < n → t0 + step * (k:ℝ) < bound) →
      ¬(t0 + step * (n:ℝ) < bound) →
      gridLoop bound step fuel t0 = (List.range n).map (fun k : ℕ => t0 + step * (k:ℝ)) := by
  induction n with
  | zero =>
    intro fuel t0 _ _ hstop
    have h0 : ¬(t0 < bound) := by simpa using hstop
    cases fuel with
    | zero => simp [gridLoop]
    | succ f => simp [gridLoop, h0]
  | succ n ih =>
    intro fuel t0 hle hlt hstop
    obtain ⟨f, rfl⟩ : ∃ f, fuel = f + 1 := ⟨fuel - 1, by omega⟩
    have h0 : t0 < bound := by simpa using hlt 0 (Nat.succ_pos n)
    have hrec := ih f (t0 + step) (by omega)
      (fun k hk => by
        have h := hlt (k + 1) (by omega)
        push_cast at h ⊢
        linarith)
      (by
        intro hcon
        apply hstop
        push_cast at hcon ⊢
        linarith)
    simp only [gridLoop, if_pos h0, hrec]
    have hcomp : (fun k : ℕ => (t0 + step) + step * (k:ℝ)) =
        (fun k : ℕ => t0 + step * (k:ℝ)) ∘ Nat.succ := by
      funext k
      simp only [Function.comp]
      push_cast
      ring
    rw [hcomp, List.range_succ_eq_map, List.map_cons, List.map_map]
    congr 1
    norm_num

theorem ten_rpow_26_lt : (10:ℝ) ^ (2.6:ℝ) < 1360 / 3 := by
  have h5 : ((10:ℝ) ^ (2.6:ℝ)) ^ (5:ℕ) = 10 ^ (13:ℕ) := by
    rw [← Real.rpow_natCast ((10:ℝ) ^ (2.6:ℝ)) 5, ← Real.rpow_mul (by norm_num : (0:ℝ) ≤ 10),
      show (2.6:ℝ) * ((5:ℕ):ℝ) = ((13:ℕ):ℝ) by push_cast; norm_num, Real.rpow_natCast]
  refine lt_of_pow_lt_pow_left₀ 5 (by norm_num) ?_
  rw [h5]
  norm_num

theorem ten_rpow_27_ge : (1360 / 3 : ℝ) ≤ (10:ℝ) ^ (2.7:ℝ) := by
  have h10 : ((10:ℝ) ^ (2.7:ℝ)) ^ (10:ℕ) = 10 ^ (27:ℕ) := by
    rw [← Real.rpow_natCast ((10:ℝ) ^ (2.7:ℝ)) 10, ← Real.rpow_mul (by norm_num : (0:ℝ) ≤ 10),
      show (2.7:ℝ) * ((10:ℕ):ℝ) = ((27:ℕ):ℝ) by push_cast; norm_num, Real.rpow_natCast]
  have hle : ((1360:ℝ) / 3) ^ (10:ℕ) ≤ ((10:ℝ) ^ (2.7:ℝ)) ^ (10:ℕ) := by
    rw [h10]
    norm_num
  exact le_of_pow_le_pow_left₀ (by norm_num) (by positivity) hle

theorem ten_rpow_285_lt : (10:ℝ) ^ (2.85:ℝ) < 5000 / 7 := by
  have h20 : ((10:ℝ) ^ (2.85:ℝ)) ^ (20:ℕ) = 10 ^ (57:ℕ) := by
    rw [← Real.rpow_natCast ((10:ℝ) ^ (2.85:ℝ)) 20, ← Real.rpow_mul (by norm_num : (0:ℝ) ≤ 10),
      show (2.85:ℝ) * ((20:ℕ):ℝ) = ((57:ℕ):ℝ) by push_cast; norm_num, Real.rpow_natCast]
  refine lt_of_pow_lt_pow_left₀ 20 (by norm_num) ?_
  rw [h20]
  norm_num

theorem ten_rpow_286_ge : (5000 / 7 : ℝ) ≤ (10:ℝ) ^ (2.86:ℝ) := by
  have h50 : ((10:ℝ) ^ (2.86:ℝ)) ^ (50:ℕ) = 10 ^ (143:ℕ) := by
    rw [← Real.rpow_natCast ((10:ℝ) ^ (2.86:ℝ)) 50, ← Real.rpow_mul (by norm_num : (0:ℝ) ≤ 10),
      show (2.86:ℝ) * ((50:ℕ):ℝ) = ((143:ℕ):ℝ) by push_cast; norm_num, Real.rpow_natCast]
  have hle : ((5000:ℝ) / 7) ^ (50:ℕ) ≤ ((10:ℝ) ^ (2.86:ℝ)) ^ (50:ℕ) := by
    rw [h50]
    norm_num
  exact le_of_pow_le_pow_left₀ (by norm_num) (by positivity) hle

theorem ten_rpow_neg_two : (10:ℝ) ^ (-2:ℝ) = 1 / 100 := by
  rw [show (-2:ℝ) = ((-2:ℤ):ℝ) by norm_num, Real.rpow_intCast]
  norm_num

theorem neg_two_lt_logb_003 : (-2:ℝ) < Real.logb 10 0.03 := by
  rw [Real.lt_logb_iff_rpow_lt (by norm_num) (by norm_num), ten_rpow_neg_two]
  norm_num

theorem neg_two_lt_logb_07 : (-2:ℝ) < Real.logb 10 0.7 := by
  rw [Real.lt_logb_iff_rpow_lt (by norm_num) (by norm_num), ten_rpow_neg_two]
  norm_num

theorem logb_003_neg : Real.logb 10 0.03 < 0 :=
  Real.logb_neg (by norm_num) (by norm_num) (by norm_num)

theorem logb_07_neg : Real.logb 10 0.7 < 0 :=
  Real.logb_neg (by norm_num) (by norm_num) (by norm_num)

theorem logb_136_lt_138 : Real.logb 10 13.6 < Real.logb 10 13.8 :=
  Real.logb_lt_logb (by norm_num) (by norm_num) (by norm_num)

theorem logb_500_lt_3 : Real.logb 10 500 < 3 := by
  rw [Real.logb_lt_iff_lt_rpow (by norm_num) (by norm_num),
    show (3:ℝ) = ((3:ℕ):ℝ) by norm_num, Real.rpow_natCast]
  norm_num

theorem delay_guard_len : Real.logb 10 0.03 + 2.6 < Real.logb 10 13.6 := by
  have h : Real.logb 10 (13.6 / 0.03) = Real.logb 10 13.6 - Real.logb 10 0.03 :=
    Real.logb_div (by norm_num) (by norm_num)
  rw [show (13.6:ℝ) / 0.03 = 1360 / 3 by norm_num] at h
  have h3 : (2.6:ℝ) < Real.logb 10 (1360 / 3) :=
    (Real.lt_logb_iff_rpow_lt (by norm_num) (by norm_num)).mpr ten_rpow_26_lt
  linarith

theorem delay_guard_stop : Real.logb 10 13.6 ≤ Real.logb 10 0.03 + 2.7 := by
  have h : Real.logb 10 (13.6 / 0.03) = Real.logb 10 13.6 - Real.logb 10 0.03 :=
    Real.logb_div (by norm_num) (by norm_num)
  rw [show (13.6:ℝ) / 0.03 = 1360 / 3 by norm_num] at h
  have h4 : Real.logb 10 (1360 / 3) ≤ 2.7 :=
    (Real.logb_le_iff_le_rpow (by norm_num) (by norm_num)).mpr ten_rpow_27_ge
  linarith

theorem popIII_guard_len : Real.logb 10 0.7 + 2.85 < Real.logb 10 500 := by
  have h : Real.logb 10 (500 / 0.7) = Real.logb 10 500 - Real.logb 10 0.7 :=
    Real.logb_div (by norm_num) (by norm_num)
  rw [show (500:ℝ) / 0.7 = 5000 / 7 by norm_num] at h
  have h3 : (2.85:ℝ) < Real.logb 10 (5000 / 7) :=
    (Real.lt_logb_iff_rpow_lt (by norm_num) (by norm_num)).mpr ten_rpow_285_lt
  linarith

theorem popIII_guard_stop : Real.logb 10 500 ≤ Real.logb 10 0.7 + 2.86 := by
  have h : Real.logb 10 (500 / 0.7) = Real.logb 10 500 - Real.logb 10 0.7 :=
    Real.logb_div (by norm_num) (by norm_num)
  rw [show (500:ℝ) / 0.7 = 5000 / 7 by norm_num] at h
  have h4 : Real.logb 10 (5000 / 7) ≤ 2.86 :=
    (Real.logb_le_iff_le_rpow (by norm_num) (by norm_num)).mpr ten_rpow_286_ge
  linarith

theorem delay_loop_eq :
    gridLoop (Real.logb 10 13.6) 0.1 29 (Real.logb 10 0.03) =
      (List.range 27).map (fun k : ℕ => Real.logb 10 0.03 + 0.1 * (k:ℝ)) := by
  apply gridLoop_eq_map_range
  · norm_num
  · intro k hk
    have hk' : (k:ℝ) ≤ 26 := by exact_mod_cast Nat.lt_succ_iff.mp hk
    have h := delay_guard_len
    nlinarith
  · intro hcon
    have h := delay_guard_stop
    push_cast at hcon
    linarith

theorem popIII_loop_eq :
    gridLoop (Real.logb 10 500) 0.01 288 (Real.logb 10 0.7) =
      (List.range 286).map (fun k : ℕ => Real.logb 10 0.7 + 0.01 * (k:ℝ)) := by
  apply gridLoop_eq_map_range
  · norm_num
  · intro k hk
    have hk' : (k:ℝ) ≤ 285 := by exact_mod_cast Nat.lt_succ_iff.mp hk
    have h := popIII_guard_len
    nlinarith
  · intro hcon
    have h := popIII_guard_stop
    push_cast at hcon
    linarith

theorem chain'_cons_map_append {R : ℝ → ℝ → Prop} (c0 a b : ℝ) (f : ℕ → ℝ) (m : ℕ)
    (h0 : R c0 (f 0)) (hmid : ∀ k, k + 1 < m + 1 → R (f k) (f (k + 1)))
    (hlast : R (f m) a) (hab : R a b) :
    List.Chain' R (c0 :: (List.range (m + 1)).map f ++ [a, b]) := by
  have hhead : (((List.range (m + 1)).map f ++ [a, b]).head?) = some (f 0) := by
    rw [List.range_succ_eq_map]
    simp
  have hgetLast : ((List.range (m + 1)).map f).getLast? = some (f m) := by
    rw [List.range_succ, List.map_append]
    simp
  have hchainmap : List.Chain' R ((List.range (m + 1)).map f) := by
    rw [List.chain'_map, List.chain'_range_succ]
    intro k hk
    exact hmid k (by omega)
  rw [List.cons_append, List.chain'_cons']
  constructor
  · intro y hy
    rw [hhead, Option.mem_some_iff] at hy
    rw [← hy]
    exact h0
  · rw [List.chain'_append]
    refine ⟨hchainmap, List.chain'_pair.mpr hab, ?_⟩
    intro x hx y hy
    rw [hgetLast, Option.mem_some_iff] at hx
    simp only [List.head?_cons, Option.mem_some_iff] at hy
    rw [← hx, ← hy]
    exact hlast



/-! ### Analysis lemmas for the delay-time distribution -/

theorem ite_pos_max (d : ℝ) : (if d > 0 then d else 0) = max 0 d := by
  rcases le_or_lt d 0 with h | h
  · rw [if_neg (not_lt.mpr h), max_eq_left h]
  · rw [if_pos h, max_eq_right h.le]

theorem delay2_eq_max (n t : ℝ) : Param.PopII_SNIa_delay2 n t = max 0 (delay2Inner n t) := by
  unfold Param.PopII_SNIa_delay2 delay2Inner
  exact ite_pos_max _

theorem delay1_cont (n mu sigma : ℝ) : Continuous (Param.PopII_SNIa_delay1 n mu sigma) := by
  unfold Param.PopII_SNIa_delay1
  fun_prop

theorem delay2Inner_cont (n : ℝ) : Continuous (delay2Inner n) := by
  unfold delay2Inner
  apply Continuous.if
  · intro a ha
    rw [show {t : ℝ | t < 0.25} = Set.Iio 0.25 from rfl, frontier_Iio] at ha
    simp only [Set.mem_singleton_iff] at ha
    subst ha
    norm_num
  · fun_prop
  · fun_prop

theorem delay2_cont (n : ℝ) : Continuous (fun t => Param.PopII_SNIa_delay2 n t) := by
  have h : (fun t => Param.PopII_SNIa_delay2 n t) = fun t => max 0 (delay2Inner n t) :=
    funext (delay2_eq_max n)
  rw [h]
  exact continuous_const.max (delay2Inner_cont n)

theorem delay_cont (n1 n2 mu sigma : ℝ) :
    Continuous (fun t => Param.PopII_SNIa_delay n1 n2 mu sigma t) := by
  unfold Param.PopII_SNIa_delay
  exact (delay1_cont n1 mu sigma).add (delay2_cont n2)

theorem delay1Unnorm_pos_on : ∀ t ∈ Set.Ioo (0.03:ℝ) 13.6, 0 < delay1Unnorm t := by
  intro t ht
  rw [Set.mem_Ioo] at ht
  show 0 < 1 * (t - 0.03) * (13.6 - t) *
    Real.exp (-0.5 * ((t - 0.05) / 0.01) * ((t - 0.05) / 0.01))
  have h1 : (0:ℝ) < t - 0.03 := by linarith [ht.1]
  have h2 : (0:ℝ) < 13.6 - t := by linarith [ht.2]
  have h3 := Real.exp_pos (-0.5 * ((t - 0.05) / 0.01) * ((t - 0.05) / 0.01))
  exact mul_pos (mul_pos (mul_pos one_pos h1) h2) h3

theorem delay2Unnorm_pos_on : ∀ t ∈ Set.Ioo (0.03:ℝ) 13.6, 0 < delay2Unnorm t := by
  intro t ht
  rw [Set.mem_Ioo] at ht
  obtain ⟨ht1, ht2⟩ := ht
  unfold delay2Unnorm
  rw [delay2_eq_max]
  refine lt_max_iff.mpr (Or.inr ?_)
  unfold delay2Inner
  split_ifs with h
  · have he : Real.exp ((0.03 - 0.25) / 0.1) < Real.exp ((t - 0.25) / 0.1) :=
      Real.exp_lt_exp.mpr (by rw [div_lt_div_iff₀ (by norm_num) (by norm_num)]; linarith)
    have hs := sub_pos.mpr he
    linarith
  · have he : Real.exp ((0.03 - 0.25) / 0.1) < Real.exp ((0.25 - t) / 7) :=
      Real.exp_lt_exp.mpr (by rw [div_lt_div_iff₀ (by norm_num) (by norm_num)]; linarith)
    have hs := sub_pos.mpr he
    linarith

theorem delay1_nonneg_on (n mu sigma : ℝ) (hn : 0 ≤ n) :
    ∀ t ∈ Set.Icc (0.03:ℝ) 13.6, 0 ≤ Param.PopII_SNIa_delay1 n mu sigma t := by
  intro t ht
  unfold Param.PopII_SNIa_delay1
  have h3 := Real.exp_pos (-0.5 * ((t - mu) / sigma) * ((t - mu) / sigma))
  have h1 : (0:ℝ) ≤ t - 0.03 := by linarith [ht.1]
  have h2 : (0:ℝ) ≤ 13.6 - t := by linarith [ht.2]
  exact mul_nonneg (mul_nonneg (mul_nonneg hn h1) h2) h3.le

theorem delay2_nonneg (n t : ℝ) : 0 ≤ Param.PopII_SNIa_delay2 n t := by
  rw [delay2_eq_max]
  exact le_max_left 0 _

theorem delay1_scale (n mu sigma t : ℝ) :
    Param.PopII_SNIa_delay1 n mu sigma t = n * Param.PopII_SNIa_delay1 1 mu sigma t := by
  unfold Param.PopII_SNIa_delay1
  ring

theorem delay2Inner_scale (n t : ℝ) : delay2Inner n t = n * delay2Inner 1 t := by
  unfold delay2Inner
  split_ifs <;> ring

theorem delay2_scale (n t : ℝ) (hn : 0 ≤ n) :
    Param.PopII_SNIa_delay2 n t = n * Param.PopII_SNIa_delay2 1 t := by
  rw [delay2_eq_max, delay2_eq_max, delay2Inner_scale, mul_max_of_nonneg _ _ hn, mul_zero]

theorem d1_pos (qag : (ℝ → ℝ) → ℝ → ℝ → ℝ) (hq : QuadContract qag) :
    0 < qag delay1Unnorm 0.03 13.6 := by
  rw [hq]
  exact intervalIntegral.intervalIntegral_pos_of_pos_on
    ((delay1_cont 1 0.05 0.01).intervalIntegrable _ _) delay1Unnorm_pos_on (by norm_num)

theorem d2_pos (qag : (ℝ → ℝ) → ℝ → ℝ → ℝ) (hq : QuadContract qag) :
    0 < qag delay2Unnorm 0.03 13.6 := by
  rw [hq]
  refine intervalIntegral.intervalIntegral_pos_of_pos_on ?_ delay2Unnorm_pos_on (by norm_num)
  exact (delay2_cont 1).intervalIntegrable _ _

theorem norm1_pos (qag : (ℝ → ℝ) → ℝ → ℝ → ℝ) (hq : QuadContract qag) :
    0 < dtdNorm1 qag := by
  unfold dtdNorm1
  exact div_pos (by norm_num) (d1_pos qag hq)

theorem norm2_pos (qag : (ℝ → ℝ) → ℝ → ℝ → ℝ) (hq : QuadContract qag) :
    0 < dtdNorm2 qag := by
  unfold dtdNorm2
  exact div_pos (by norm_num) (d2_pos qag hq)

theorem delayNormed_eq (qag : (ℝ → ℝ) → ℝ → ℝ → ℝ) (hq : QuadContract qag) :
    delayNormed qag = fun t => dtdNorm1 qag * delay1Unnorm t + dtdNorm2 qag * delay2Unnorm t := by
  funext t
  unfold delayNormed Param.PopII_SNIa_delay delay1Unnorm delay2Unnorm
  rw [delay1_scale (dtdNorm1 qag), delay2_scale _ _ (norm2_pos qag hq).le]

theorem delayNormed_nonneg_on (qag : (ℝ → ℝ) → ℝ → ℝ → ℝ) (hq : QuadContract qag) :
    ∀ t ∈ Set.Icc (0.03:ℝ) 13.6, 0 ≤ delayNormed qag t := by
  intro t ht
  unfold delayNormed Param.PopII_SNIa_delay
  exact add_nonneg (delay1_nonneg_on _ _ _ (norm1_pos qag hq).le t ht) (delay2_nonneg _ t)

theorem delayNormed_cont (qag : (ℝ → ℝ) → ℝ → ℝ → ℝ) :
    Continuous (delayNormed qag) := by
  unfold delayNormed
  exact delay_cont _ _ _ _

theorem delayNormed_integral_one (qag : (ℝ → ℝ) → ℝ → ℝ → ℝ) (hq : QuadContract qag) :
    (∫ t in (0.03:ℝ)..13.6, delayNormed qag t) = 1 := by
  have i1 : IntervalIntegrable (fun t => dtdNorm1 qag * delay1Unnorm t) MeasureTheory.volume
      0.03 13.6 := (continuous_const.mul (delay1_cont 1 0.05 0.01)).intervalIntegrable _ _
  have i2 : IntervalIntegrable (fun t => dtdNorm2 qag * delay2Unnorm t) MeasureTheory.volume
      0.03 13.6 := (continuous_const.mul (delay2_cont 1)).intervalIntegrable _ _
  simp only [delayNormed_eq qag hq]
  rw [intervalIntegral.integral_add i1 i2,
    intervalIntegral.integral_const_mul, intervalIntegral.integral_const_mul]
  have hd1 : (∫ t in (0.03:ℝ)..13.6, delay1Unnorm t) ≠ 0 := by
    have := d1_pos qag hq
    rw [hq] at this
    exact ne_of_gt this
  have hd2 : (∫ t in (0.03:ℝ)..13.6, delay2Unnorm t) ≠ 0 := by
    have := d2_pos qag hq
    rw [hq] at this
    exact ne_of_gt this
  unfold dtdNorm1 dtdNorm2
  rw [hq, hq]
  field_simp
  norm_num

theorem initModel_PopII_M_low (qag : (ℝ → ℝ) → ℝ → ℝ → ℝ) :
    (initModel qag)._PopII_M_low = 0.07 := rfl

theorem initModel_PopII_M_upp (qag : (ℝ → ℝ) → ℝ → ℝ → ℝ) :
    (initModel qag)._PopII_M_upp = 100 := rfl

theorem initModel_PopIII_M_low (qag : (ℝ → ℝ) → ℝ → ℝ → ℝ) :
    (initModel qag)._PopIII_M_low = 0.7 := rfl

theorem initModel_PopIII_M_upp (qag : (ℝ → ℝ) → ℝ → ℝ → ℝ) :
    (initModel qag)._PopIII_M_upp = 500 := rfl

theorem sub1_pos (m : ℝ) (hm : 0 < m) : 0 < Param.PopII_IMF_sub1 m := by
  show 0 < Real.exp (-0.5 * ((Real.logb 10 m + 1.1024) * (Real.logb 10 m + 1.1024) / 0.4761)) / m
  exact div_pos (Real.exp_pos _) hm

theorem popII_IMF_nonneg_init (qag : (ℝ → ℝ) → ℝ → ℝ → ℝ) (m : ℝ) :
    0 ≤ DSF.PopII_IMF (initModel qag) m := by
  show 0 ≤ Param.PopII_IMF 0.07 100 (1 / Param.PopII_IMF_sub1 1) m
  unfold Param.PopII_IMF
  split_ifs with h1 h2
  · have hm : (0:ℝ) < m := lt_trans (by norm_num) h1.1
    exact (mul_pos (one_div_pos.mpr sub1_one_pos) (sub1_pos m hm)).le
  · exact Real.rpow_nonneg (le_trans (by norm_num) h1.1.le) _
  · exact le_refl 0

theorem popII_IMF_zero_outside (M_low M_upp fac m : ℝ) (hm : m ≤ M_low ∨ M_upp ≤ m) :
    Param.PopII_IMF M_low M_upp fac m = 0 := by
  unfold Param.PopII_IMF
  rw [if_neg]
  rintro ⟨hc1, hc2⟩
  rcases hm with hm | hm
  · exact absurd hc1 (not_lt.mpr hm)
  · exact absurd hc2 (not_lt.mpr hm)

theorem popIII_IMF_nonneg (M_low M_upp M1 M2 M3 fac pw : ℝ) (hL : 0 ≤ M_low) (m : ℝ) :
    0 ≤ Param.PopIII_IMF M_low M_upp M1 M2 M3 fac pw m := by
  unfold Param.PopIII_IMF
  by_cases hc : M_low < m ∧ m < M_upp
  · rw [if_pos hc]
    have hm : 0 < m := lt_of_le_of_lt hL hc.1
    dsimp only
    split_ifs <;> first | exact le_refl 0 | exact (div_pos (by assumption) hm).le
  · rw [if_neg hc]

theorem popIII_IMF_zero_outside (M_low M_upp M1 M2 M3 fac pw m : ℝ)
    (hm : m ≤ M_low ∨ M_upp ≤ m) :
    Param.PopIII_IMF M_low M_upp M1 M2 M3 fac pw m = 0 := by
  unfold Param.PopIII_IMF
  rw [if_neg]
  rintro ⟨hc1, hc2⟩
  rcases hm with hm | hm
  · exact absurd hc1 (not_lt.mpr hm)
  · exact absurd hc2 (not_lt.mpr hm)

/-! ### Claims C2 and C4 -/

/-- Claim C2 counterexample: `PopII_SNIa_delay1` is NOT non-negative for every
real argument in the initialized model: at `t = 0`, the factor `(t - 0.03)` is
negative, `(13.6 - t)` and the Gaussian factor are positive, and the
normalization constant is positive, so the density is strictly negative
(nothing clamps it to zero outside the `[0.03, 13.6]` window). -/
theorem claim_C2_counterexample : DSF.PopII_SNIa_delay1 (initModel intExact) 0 < 0 := by
  have hq : QuadContract intExact := fun f a b => rfl
  have hn : 0 < dtdNorm1 intExact := norm1_pos intExact hq
  show Param.PopII_SNIa_delay1 (dtdNorm1 intExact) 0.05 0.01 0 < 0
  unfold Param.PopII_SNIa_delay1
  have he := Real.exp_pos (-0.5 * ((0 - 0.05) / 0.01) * ((0 - 0.05) / 0.01))
  nlinarith

/-- Claim C2 (amended): in the initialized model the IMF densities
(`PopII_IMF`, `PopIII_IMF`) are non-negative for every real argument and
exactly zero at and outside their population-specific support bounds, and
`PopII_SNIa_delay2` is non-negative everywhere; but for the DTD components the
non-negativity of `PopII_SNIa_delay1` (and hence of the sum
`PopII_SNIa_delay`) holds on the DTD window `[0.03, 13.6]` — outside that
window `PopII_SNIa_delay1` can be negative (see the counterexample). -/
theorem claim_C2_amended (qag : (ℝ → ℝ) → ℝ → ℝ → ℝ) (hq : QuadContract qag) :
    (∀ m : ℝ, 0 ≤ DSF.PopII_IMF (initModel qag) m) ∧
    (∀ m : ℝ, m ≤ (initModel qag)._PopII_M_low ∨ (initModel qag)._PopII_M_upp ≤ m →
      DSF.PopII_IMF (initModel qag) m = 0) ∧
    (∀ m : ℝ, 0 ≤ DSF.PopIII_IMF (initModel qag) m) ∧
    (∀ m : ℝ, m ≤ (initModel qag)._PopIII_M_low ∨ (initModel qag)._PopIII_M_upp ≤ m →
      DSF.PopIII_IMF (initModel qag) m = 0) ∧
    (∀ t : ℝ, 0 ≤ DSF.PopII_SNIa_delay2 (initModel qag) t) ∧
    (∀ t : ℝ, t ∈ Set.Icc (0.03:ℝ) 13.6 →
      0 ≤ DSF.PopII_SNIa_delay1 (initModel qag) t ∧
      0 ≤ DSF.PopII_SNIa_delay (initModel qag) t) := by
  refine ⟨popII_IMF_nonneg_init qag, ?_, ?_, ?_, ?_, ?_⟩
  · intro m hm
    exact popII_IMF_zero_outside _ _ _ m hm
  · intro m
    have hL : (0:ℝ) ≤ (initModel qag)._PopIII_M_low := by
      rw [initModel_PopIII_M_low]
      norm_num
    exact popIII_IMF_nonneg _ _ _ _ _ _ _ hL m
  · intro m hm
    exact popIII_IMF_zero_outside _ _ _ _ _ _ _ m hm
  · intro t
    exact delay2_nonneg _ t
  · intro t ht
    constructor
    · show 0 ≤ Param.PopII_SNIa_delay1 (dtdNorm1 qag) 0.05 0.01 t
      exact delay1_nonneg_on _ _ _ (norm1_pos qag hq).le t ht
    · show 0 ≤ delayNormed qag t
      exact delayNormed_nonneg_on qag hq t ht

/-- Witness for the amended claim C2: the exact integrator satisfies the
quadrature contract, and the amended statement holds at sample points. -/
theorem claim_C2_amended_witness :
    QuadContract intExact ∧
    0 ≤ DSF.PopII_IMF (initModel intExact) 50 ∧
    DSF.PopII_IMF (initModel intExact) 0.05 = 0 ∧
    0 ≤ DSF.PopIII_IMF (initModel intExact) 50 ∧
    DSF.PopIII_IMF (initModel intExact) 600 = 0 ∧
    0 ≤ DSF.PopII_SNIa_delay2 (initModel intExact) 1 ∧
    0 ≤ DSF.PopII_SNIa_delay1 (initModel intExact) 1 ∧
    0 ≤ DSF.PopII_SNIa_delay (initModel intExact) 1 := by
  have hq : QuadContract intExact := fun f a b => rfl
  have h := claim_C2_amended intExact hq
  have hwin := h.2.2.2.2.2 1 (by rw [Set.mem_Icc]; constructor <;> norm_num)
  exact ⟨hq, h.1 50, h.2.1 0.05 (Or.inl (by rw [initModel_PopII_M_low]; norm_num)),
    h.2.2.1 50, h.2.2.2.1 600 (Or.inr (by rw [initModel_PopIII_M_upp]; norm_num)),
    h.2.2.2.2.1 1, hwin.1, hwin.2⟩

/-- Claim C4: after `initialize()`, `_PopII_SNIa_delay_norm1` equals `0.4`
divided by the integral of the unnormalized first DTD component over
`[0.03, 13.6]`, `_PopII_SNIa_delay_norm2` equals `0.6` divided by the integral
of the unnormalized second component over the same interval, and the combined
normalized density `PopII_SNIa_delay` integrates to exactly 1 over
`[0.03, 13.6]` (quadrature idealized as exact integration per the
integrator's contract). -/
theorem claim_C4_dtd_normalization (qag : (ℝ → ℝ) → ℝ → ℝ → ℝ) (hq : QuadContract qag) :
    (initModel qag)._PopII_SNIa_delay_norm1
        = 0.4 / (∫ t in (0.03:ℝ)..13.6, delay1Unnorm t) ∧
    (initModel qag)._PopII_SNIa_delay_norm2
        = 0.6 / (∫ t in (0.03:ℝ)..13.6, delay2Unnorm t) ∧
    (∫ t in (0.03:ℝ)..13.6, DSF.PopII_SNIa_delay (initModel qag) t) = 1 := by
  refine ⟨?_, ?_, ?_⟩
  · show dtdNorm1 qag = _
    unfold dtdNorm1
    rw [hq]
  · show dtdNorm2 qag = _
    unfold dtdNorm2
    rw [hq]
  · show (∫ t in (0.03:ℝ)..13.6, delayNormed qag t) = 1
    exact delayNormed_integral_one qag hq

/-- Witness for claim C4: the exact integrator satisfies the quadrature
contract and the claim holds for it. -/
theorem claim_C4_witness :
    QuadContract intExact ∧
    ((initModel intExact)._PopII_SNIa_delay_norm1
        = 0.4 / (∫ t in (0.03:ℝ)..13.6, delay1Unnorm t) ∧
    (initModel intExact)._PopII_SNIa_delay_norm2
        = 0.6 / (∫ t in (0.03:ℝ)..13.6, delay2Unnorm t) ∧
    (∫ t in (0.03:ℝ)..13.6, DSF.PopII_SNIa_delay (initModel intExact) t) = 1) := by
  have hq : QuadContract intExact := fun f a b => rfl
  exact ⟨hq, claim_C4_dtd_normalization intExact hq⟩



/-! ### Measurability, boundedness and integrability of the PopIII IMF -/

theorem popIII_IMF_fixed_eq : popIII_IMF_fixed = fun m : ℝ =>
    if (0.7:ℝ) < m ∧ m < 500 then
      (if popIIIVal m > 0 then popIIIVal m / m else 0)
    else 0 := by
  funext m
  rfl

theorem two_lt_logb_500 : (2:ℝ) < Real.logb 10 500 := by
  rw [Real.lt_logb_iff_rpow_lt (by norm_num) (by norm_num),
    show (2:ℝ) = ((2:ℕ):ℝ) by norm_num, Real.rpow_natCast]
  norm_num

theorem popIIITent_measurable : Measurable popIIITent := by
  unfold popIIITent
  have hlog : Measurable fun m : ℝ => Real.logb 10 m := Real.measurable_log.div_const _
  apply Measurable.ite
  · exact measurableSet_lt hlog measurable_const
  · exact ((hlog.sub_const _).const_mul 0.5).div_const _
  · exact (((hlog.add_const _).sub_const _).const_mul 0.5).div_const _

theorem popIIIVal_measurable : Measurable popIIIVal := by
  unfold popIIIVal
  have hbase : Measurable fun m => popIIITent m * (1 - popIIITent m) :=
    popIIITent_measurable.mul (measurable_const.sub popIIITent_measurable)
  exact ((Real.continuous_rpow_const (by norm_num)).measurable.comp hbase).const_mul _

theorem popIII_IMF_fixed_measurable : Measurable popIII_IMF_fixed := by
  rw [popIII_IMF_fixed_eq]
  apply Measurable.ite
  · rw [Set.setOf_and]
    exact (measurableSet_lt measurable_const measurable_id).inter
      (measurableSet_lt measurable_id measurable_const)
  · apply Measurable.ite
    · exact measurableSet_lt measurable_const popIIIVal_measurable
    · exact popIIIVal_measurable.div measurable_id
    · exact measurable_const
  · exact measurable_const

theorem popIIITent_bounds (m : ℝ) (hm : 0.7 < m ∧ m < 500) :
    0 < popIIITent m ∧ popIIITent m < 1 := by
  have hM12 : Real.logb 10 0.7 < 1.51130759 := lt_trans logb_07_neg (by norm_num)
  have h2log : (2:ℝ) < Real.logb 10 500 := two_lt_logb_500
  have hlogm1 : Real.logb 10 0.7 < Real.logb 10 m :=
    Real.logb_lt_logb (by norm_num) (by norm_num) hm.1
  have hlogm3 : Real.logb 10 m < Real.logb 10 500 :=
    Real.logb_lt_logb (by norm_num) (lt_trans (by norm_num) hm.1) hm.2
  unfold popIIITent
  split_ifs with h
  · constructor
    · exact div_pos (by linarith) (by linarith)
    · rw [div_lt_one (by linarith)]
      linarith
  · push_neg at h
    constructor
    · exact div_pos (by linarith) (by linarith)
    · rw [div_lt_one (by linarith)]
      linarith

theorem popIIIVal_le (m : ℝ) (hm : 0.7 < m ∧ m < 500) : popIIIVal m ≤ 708.92544818 := by
  obtain ⟨h0, h1⟩ := popIIITent_bounds m hm
  unfold popIIIVal
  have hbase0 : 0 ≤ popIIITent m * (1 - popIIITent m) := mul_nonneg h0.le (by linarith)
  have hbase1 : popIIITent m * (1 - popIIITent m) ≤ 1 := by nlinarith
  have hr := Real.rpow_le_one hbase0 hbase1 (by norm_num : (0:ℝ) ≤ 2.8008394)
  nlinarith

theorem popIII_IMF_fixed_nonneg (m : ℝ) : 0 ≤ popIII_IMF_fixed m :=
  popIII_IMF_nonneg _ _ _ _ _ _ _ (by norm_num) m

theorem popIII_IMF_fixed_bound (m : ℝ) : ‖popIII_IMF_fixed m‖ ≤ 1013 := by
  rw [Real.norm_eq_abs, abs_of_nonneg (popIII_IMF_fixed_nonneg m)]
  rw [popIII_IMF_fixed_eq]
  dsimp only
  split_ifs with h1 h2
  · have hv := popIIIVal_le m h1
    have hm07 : (0.7:ℝ) < m := h1.1
    have hdd : popIIIVal m / m ≤ 708.92544818 / 0.7 :=
      div_le_div₀ (by norm_num) hv (by norm_num) hm07.le
    linarith [hdd]
  · norm_num
  · norm_num

theorem popIII_intervalIntegrable (a b : ℝ) :
    IntervalIntegrable popIII_IMF_fixed MeasureTheory.volume a b := by
  have hg : IntervalIntegrable (fun _ : ℝ => (1013:ℝ)) MeasureTheory.volume a b :=
    intervalIntegrable_const
  exact hg.mono_fun' popIII_IMF_fixed_measurable.aestronglyMeasurable
    (MeasureTheory.ae_of_all _ popIII_IMF_fixed_bound)

/-! ### Monotonicity of the cumulative integrals -/

theorem popIII_surv_mono {a b : ℝ} (hab : a ≤ b) :
    (∫ m in b..(500:ℝ), popIII_IMF_fixed m) ≤ ∫ m in a..(500:ℝ), popIII_IMF_fixed m := by
  have key := intervalIntegral.integral_add_adjacent_intervals
    (popIII_intervalIntegrable a b) (popIII_intervalIntegrable b 500)
  have hnn : 0 ≤ ∫ m in a..b, popIII_IMF_fixed m :=
    intervalIntegral.integral_nonneg hab (fun u _ => popIII_IMF_fixed_nonneg u)
  linarith

theorem popIII_surv_nonneg {a : ℝ} (ha : a ≤ 500) :
    0 ≤ ∫ m in a..(500:ℝ), popIII_IMF_fixed m :=
  intervalIntegral.integral_nonneg ha (fun u _ => popIII_IMF_fixed_nonneg u)

theorem popIII_int_zero_to_upp :
    (∫ m in (0:ℝ)..500, popIII_IMF_fixed m) = ∫ m in (0.7:ℝ)..500, popIII_IMF_fixed m := by
  have key := intervalIntegral.integral_add_adjacent_intervals
    (popIII_intervalIntegrable 0 0.7) (popIII_intervalIntegrable 0.7 500)
  have hz : (∫ m in (0:ℝ)..0.7, popIII_IMF_fixed m) = 0 := by
    have hcg : Set.EqOn popIII_IMF_fixed (fun _ => (0:ℝ)) (Set.uIcc (0:ℝ) 0.7) := by
      intro x hx
      rw [Set.uIcc_of_le (by norm_num : (0:ℝ) ≤ 0.7), Set.mem_Icc] at hx
      exact popIII_IMF_zero_outside _ _ _ _ _ _ _ x (Or.inl hx.2)
    rw [intervalIntegral.integral_congr hcg]
    simp
  linarith

theorem delay_cumul_mono (qag : (ℝ → ℝ) → ℝ → ℝ → ℝ) (hq : QuadContract qag) {x y : ℝ}
    (h03x : 0.03 ≤ x) (hxy : x ≤ y) (hy : y ≤ 13.6) :
    (∫ t in (0.03:ℝ)..x, delayNormed qag t) ≤ ∫ t in (0.03:ℝ)..y, delayNormed qag t := by
  have i1 : IntervalIntegrable (delayNormed qag) MeasureTheory.volume 0.03 x :=
    (delayNormed_cont qag).intervalIntegrable 0.03 x
  have i2 : IntervalIntegrable (delayNormed qag) MeasureTheory.volume x y :=
    (delayNormed_cont qag).intervalIntegrable x y
  have key := intervalIntegral.integral_add_adjacent_intervals i1 i2
  have hnn : 0 ≤ ∫ t in x..y, delayNormed qag t := by
    refine intervalIntegral.integral_nonneg hxy (fun u hu => ?_)
    rw [Set.mem_Icc] at hu
    exact delayNormed_nonneg_on qag hq u
      (Set.mem_Icc.mpr ⟨le_trans h03x hu.1, le_trans hu.2 hy⟩)
  linarith

theorem delay_cumul_nonneg (qag : (ℝ → ℝ) → ℝ → ℝ → ℝ) (hq : QuadContract qag) {x : ℝ}
    (h03x : 0.03 ≤ x) (hx : x ≤ 13.6) :
    0 ≤ ∫ t in (0.03:ℝ)..x, delayNormed qag t := by
  refine intervalIntegral.integral_nonneg h03x (fun u hu => ?_)
  rw [Set.mem_Icc] at hu
  exact delayNormed_nonneg_on qag hq u (Set.mem_Icc.mpr ⟨hu.1, le_trans hu.2 hx⟩)

theorem delay_cumul_le_one (qag : (ℝ → ℝ) → ℝ → ℝ → ℝ) (hq : QuadContract qag) {x : ℝ}
    (h03x : 0.03 ≤ x) (hx : x ≤ 13.6) :
    (∫ t in (0.03:ℝ)..x, delayNormed qag t) ≤ 1 := by
  have h := delay_cumul_mono qag hq h03x hx (le_refl (13.6:ℝ))
  rw [delayNormed_integral_one qag hq] at h
  exact h

/-! ### Powers of ten on the log grids -/

theorem rpow10_lt_of_lt {x y : ℝ} (h : x < y) : (10:ℝ) ^ x < (10:ℝ) ^ y :=
  (Real.rpow_lt_rpow_left_iff (by norm_num)).mpr h

theorem rpow10_le_of_le {x y : ℝ} (h : x ≤ y) : (10:ℝ) ^ x ≤ (10:ℝ) ^ y :=
  (Real.rpow_le_rpow_left_iff (by norm_num)).mpr h

theorem rpow10_logb_003 : (10:ℝ) ^ Real.logb 10 0.03 = 0.03 :=
  Real.rpow_logb (by norm_num) (by norm_num) (by norm_num)

theorem rpow10_logb_07 : (10:ℝ) ^ Real.logb 10 0.7 = 0.7 :=
  Real.rpow_logb (by norm_num) (by norm_num) (by norm_num)

theorem rpow10_logb_136 : (10:ℝ) ^ Real.logb 10 13.6 = 13.6 :=
  Real.rpow_logb (by norm_num) (by norm_num) (by norm_num)

theorem rpow10_logb_500 : (10:ℝ) ^ Real.logb 10 500 = 500 :=
  Real.rpow_logb (by norm_num) (by norm_num) (by norm_num)



/-! ### Shapes of the two cumulative spline knot tables -/

theorem create_xs (k : InterpKind) (xs ys : List ℝ) : (SplineData.create k xs ys).xs = xs := rfl

theorem create_ys (k : InterpKind) (xs ys : List ℝ) : (SplineData.create k xs ys).ys = ys := rfl

theorem initModel_delay_spline (qag : (ℝ → ℝ) → ℝ → ℝ → ℝ) :
    (initModel qag)._PopII_SNIa_delay_spline =
      SplineData.create .cubic (delayTs qag) (delayCumul qag) := rfl

theorem initModel_popIII_spline (qag : (ℝ → ℝ) → ℝ → ℝ → ℝ) :
    (initModel qag)._PopIII_IMF_spline =
      SplineData.create .linear popIIIMs (popIIIIMFs qag) := rfl

theorem delayCumul_eq (qag : (ℝ → ℝ) → ℝ → ℝ → ℝ) :
    delayCumul qag = (0:ℝ) :: (List.range 27).map
        (fun k : ℕ => qag (delayNormed qag) 0.03
          ((10:ℝ) ^ (Real.logb 10 0.03 + 0.1 * (k:ℝ)))) ++ [1, 1] := by
  unfold delayCumul
  rw [delay_loop_eq, List.map_map]
  rfl

theorem delayTs_eq (qag : (ℝ → ℝ) → ℝ → ℝ → ℝ) (hq : QuadContract qag) :
    delayTs qag = (-2:ℝ) :: (List.range 27).map
        (fun k : ℕ => Real.logb 10 0.03 + 0.1 * (k:ℝ))
      ++ [Real.logb 10 13.6, Real.logb 10 13.8] := by
  unfold delayTs
  rw [delay_loop_eq]
  congr 1
  rw [List.map_map]
  rw [show (27:ℕ) = 26 + 1 from rfl, List.range_succ_eq_map, List.map_cons]
  congr 1
  show -2 + qag (delayNormed qag) 0.03
      ((10:ℝ) ^ (Real.logb 10 0.03 + 0.1 * ((0:ℕ):ℝ))) = -2
  rw [hq, show (10:ℝ) ^ (Real.logb 10 0.03 + 0.1 * ((0:ℕ):ℝ)) = 0.03 by
      push_cast
      rw [mul_zero, add_zero, rpow10_logb_003],
    intervalIntegral.integral_same, add_zero]

theorem popIIIMs_eq :
    popIIIMs = (-2:ℝ) :: (List.range 286).map
        (fun k : ℕ => Real.logb 10 0.7 + 0.01 * (k:ℝ))
      ++ [Real.logb 10 500, 3] := by
  unfold popIIIMs
  rw [popIII_loop_eq]

theorem popIIIIMFs_eq (qag : (ℝ → ℝ) → ℝ → ℝ → ℝ) :
    popIIIIMFs qag = qag popIII_IMF_fixed 0 500 :: (List.range 286).map
        (fun k : ℕ => qag popIII_IMF_fixed
          ((10:ℝ) ^ (Real.logb 10 0.7 + 0.01 * (k:ℝ))) 500) ++ [0, 0] := by
  unfold popIIIIMFs
  rw [popIII_loop_eq, List.map_map]
  rfl

theorem getElem_cons_append_a {c0 a b : ℝ} {L : List ℝ} {n : ℕ} (hL : L.length + 1 = n) :
    (c0 :: L ++ [a, b])[n]? = some a := by
  subst hL
  rw [List.getElem?_append_right (by simp only [List.length_cons]; omega)]
  rw [show L.length + 1 - (c0 :: L).length = 0 by simp only [List.length_cons]; omega]
  rfl

theorem getElem_cons_append_b {c0 a b : ℝ} {L : List ℝ} {n : ℕ} (hL : L.length + 2 = n) :
    (c0 :: L ++ [a, b])[n]? = some b := by
  subst hL
  rw [List.getElem?_append_right (by simp only [List.length_cons]; omega)]
  rw [show L.length + 2 - (c0 :: L).length = 1 by simp only [List.length_cons]; omega]
  rfl

theorem delay_grid_mem (k : ℕ) (hk : (k:ℝ) ≤ 26) :
    0.03 ≤ (10:ℝ) ^ (Real.logb 10 0.03 + 0.1 * (k:ℝ)) ∧
    (10:ℝ) ^ (Real.logb 10 0.03 + 0.1 * (k:ℝ)) ≤ 13.6 := by
  constructor
  · have h1 : (10:ℝ) ^ (Real.logb 10 0.03) ≤
        (10:ℝ) ^ (Real.logb 10 0.03 + 0.1 * (k:ℝ)) := by
      refine rpow10_le_of_le ?_
      have hc : (0:ℝ) ≤ (k:ℝ) := Nat.cast_nonneg k
      linarith
    rw [rpow10_logb_003] at h1
    exact h1
  · have h2 : (10:ℝ) ^ (Real.logb 10 0.03 + 0.1 * (k:ℝ)) ≤
        (10:ℝ) ^ (Real.logb 10 0.03 + 2.6) := rpow10_le_of_le (by linarith)
    have h3 : (10:ℝ) ^ (Real.logb 10 0.03 + 2.6) < (10:ℝ) ^ (Real.logb 10 13.6) :=
      rpow10_lt_of_lt delay_guard_len
    rw [rpow10_logb_136] at h3
    linarith

/-! ### Claims C3, C5, C6 -/

/-- Claim C3: in the initialized model (quadrature contract assumed), the
30-knot cumulative delay-time spline has strictly increasing abscissas and
non-decreasing ordinates, with ordinate exactly 1 at the knots `log10(13.6)`
and `log10(13.8)`; and the 289-knot cumulative PopIII IMF spline has strictly
increasing abscissas and non-increasing ordinates, with ordinate exactly 0 at
`log10(M_upp)` and at the knot above it. -/
theorem claim_C3_spline_monotonicity (qag : (ℝ → ℝ) → ℝ → ℝ → ℝ) (hq : QuadContract qag) :
    ((initModel qag)._PopII_SNIa_delay_spline.xs.length = 30 ∧
     List.Chain' (· < ·) (initModel qag)._PopII_SNIa_delay_spline.xs ∧
     List.Chain' (· ≤ ·) (initModel qag)._PopII_SNIa_delay_spline.ys ∧
     (initModel qag)._PopII_SNIa_delay_spline.xs[28]? = some (Real.logb 10 13.6) ∧
     (initModel qag)._PopII_SNIa_delay_spline.ys[28]? = some 1 ∧
     (initModel qag)._PopII_SNIa_delay_spline.xs[29]? = some (Real.logb 10 13.8) ∧
     (initModel qag)._PopII_SNIa_delay_spline.ys[29]? = some 1) ∧
    ((initModel qag)._PopIII_IMF_spline.xs.length = 289 ∧
     List.Chain' (· < ·) (initModel qag)._PopIII_IMF_spline.xs ∧
     List.Chain' (· ≥ ·) (initModel qag)._PopIII_IMF_spline.ys ∧
     (initModel qag)._PopIII_IMF_spline.xs[287]? = some (Real.logb 10 500) ∧
     (initModel qag)._PopIII_IMF_spline.ys[287]? = some 0 ∧
     (initModel qag)._PopIII_IMF_spline.ys[288]? = some 0) := by
  rw [initModel_delay_spline, initModel_popIII_spline, create_xs, create_ys,
    create_xs, create_ys, delayTs_eq qag hq, delayCumul_eq qag, popIIIMs_eq, popIIIIMFs_eq qag]
  constructor
  · refine ⟨by simp, ?_, ?_, ?_, ?_, ?_, ?_⟩
    · refine chain'_cons_map_append (-2) _ _ _ 26 ?_ ?_ ?_ logb_136_lt_138
      · have hb := neg_two_lt_logb_003
        push_cast
        linarith
      · intro k hk
        push_cast
        linarith
      · have hb := delay_guard_len
        push_cast
        linarith
    · refine chain'_cons_map_append 0 _ _ _ 26 ?_ ?_ ?_ (le_refl 1)
      · show (0:ℝ) ≤ qag (delayNormed qag) 0.03
          ((10:ℝ) ^ (Real.logb 10 0.03 + 0.1 * ((0:ℕ):ℝ)))
        rw [hq]
        exact delay_cumul_nonneg qag hq (delay_grid_mem 0 (by norm_num)).1
          (delay_grid_mem 0 (by norm_num)).2
      · intro k hk
        show qag (delayNormed qag) 0.03
            ((10:ℝ) ^ (Real.logb 10 0.03 + 0.1 * ((k:ℕ):ℝ))) ≤
          qag (delayNormed qag) 0.03
            ((10:ℝ) ^ (Real.logb 10 0.03 + 0.1 * (((k+1):ℕ):ℝ)))
        rw [hq, hq]
        have hk25 : (k:ℝ) ≤ 25 := by
          have hc : k ≤ 25 := by omega
          exact_mod_cast hc
        have hk26 : (k:ℝ) ≤ 26 := by linarith
        have hk26' : (((k+1):ℕ):ℝ) ≤ 26 := by
          push_cast
          linarith
        refine delay_cumul_mono qag hq (delay_grid_mem k hk26).1 ?_
          (delay_grid_mem _ hk26').2
        refine rpow10_le_of_le ?_
        push_cast
        linarith
      · show qag (delayNormed qag) 0.03
            ((10:ℝ) ^ (Real.logb 10 0.03 + 0.1 * ((26:ℕ):ℝ))) ≤ 1
        rw [hq]
        exact delay_cumul_le_one qag hq (delay_grid_mem 26 (by norm_num)).1
          (delay_grid_mem 26 (by norm_num)).2
    · exact getElem_cons_append_a (by simp)
    · exact getElem_cons_append_a (by simp)
    · exact getElem_cons_append_b (by simp)
    · exact getElem_cons_append_b (by simp)
  · refine ⟨by simp, ?_, ?_, ?_, ?_, ?_⟩
    · refine chain'_cons_map_append (-2) _ _ _ 285 ?_ ?_ ?_ logb_500_lt_3
      · have hb := neg_two_lt_logb_07
        push_cast
        linarith
      · intro k hk
        push_cast
        linarith
      · have hb := popIII_guard_len
        push_cast
        linarith
    · refine chain'_cons_map_append _ _ _ _ 285 ?_ ?_ ?_ (le_refl 0)
      · show qag popIII_IMF_fixed
            ((10:ℝ) ^ (Real.logb 10 0.7 + 0.01 * ((0:ℕ):ℝ))) 500 ≤
          qag popIII_IMF_fixed 0 500
        rw [hq, hq, show (10:ℝ) ^ (Real.logb 10 0.7 + 0.01 * ((0:ℕ):ℝ)) = 0.7 by
          push_cast
          rw [mul_zero, add_zero, rpow10_logb_07], popIII_int_zero_to_upp]
      · intro k hk
        show qag popIII_IMF_fixed
            ((10:ℝ) ^ (Real.logb 10 0.7 + 0.01 * (((k+1):ℕ):ℝ))) 500 ≤
          qag popIII_IMF_fixed
            ((10:ℝ) ^ (Real.logb 10 0.7 + 0.01 * ((k:ℕ):ℝ))) 500
        rw [hq, hq]
        refine popIII_surv_mono (rpow10_le_of_le ?_)
        push_cast
        linarith
      · show (0:ℝ) ≤ qag popIII_IMF_fixed
            ((10:ℝ) ^ (Real.logb 10 0.7 + 0.01 * ((285:ℕ):ℝ))) 500
        rw [hq]
        refine popIII_surv_nonneg ?_
        have h3 : (10:ℝ) ^ (Real.logb 10 0.7 + 0.01 * ((285:ℕ):ℝ)) <
            (10:ℝ) ^ (Real.logb 10 500) := by
          refine rpow10_lt_of_lt ?_
          have hb := popIII_guard_len
          push_cast
          linarith
        rw [rpow10_logb_500] at h3
        exact h3.le
    · exact getElem_cons_append_a (by simp)
    · exact getElem_cons_append_a (by simp)
    · exact getElem_cons_append_b (by simp)

/-- Witness for claim C3: the exact integrator satisfies the contract, and the
claim holds for it (sample conjuncts instantiated). -/
theorem claim_C3_witness :
    QuadContract intExact ∧
    (List.Chain' (· < ·) (initModel intExact)._PopII_SNIa_delay_spline.xs ∧
     List.Chain' (· ≤ ·) (initModel intExact)._PopII_SNIa_delay_spline.ys ∧
     List.Chain' (· < ·) (initModel intExact)._PopIII_IMF_spline.xs ∧
     List.Chain' (· ≥ ·) (initModel intExact)._PopIII_IMF_spline.ys ∧
     (initModel intExact)._PopII_SNIa_delay_spline.ys[28]? = some 1 ∧
     (initModel intExact)._PopIII_IMF_spline.ys[287]? = some 0) := by
  have hq : QuadContract intExact := fun f a b => rfl
  have h := claim_C3_spline_monotonicity intExact hq
  exact ⟨hq, h.1.2.1, h.1.2.2.1, h.2.2.1, h.2.2.2.1, h.1.2.2.2.2.1, h.2.2.2.2.2.1⟩



theorem getElem_one_cons_cons {x y : ℝ} (L B : List ℝ) : ((x :: y :: L) ++ B)[1]? = some y := by
  rw [List.cons_append, List.cons_append]
  simp

/-- Claim C5 counterexample: the prepended padding knot of the cumulative
delay-time spline does NOT lie at abscissa `log10(0.03) - 2`: the source
initializes `ts[0] = -2` and then executes `ts[0] += cumul_delay[1]`, and
`cumul_delay[1]` is the integral over the degenerate interval
`[0.03, 10^(log10 0.03)] = [0.03, 0.03]`, i.e. `0` — so the abscissa is `-2`,
not `log10(0.03) - 2 ≈ -3.52`. -/
theorem claim_C5_counterexample :
    (initModel intExact)._PopII_SNIa_delay_spline.xs.headI ≠ Real.logb 10 0.03 - 2 := by
  have hq : QuadContract intExact := fun f a b => rfl
  rw [initModel_delay_spline, create_xs, delayTs_eq intExact hq]
  show (-2:ℝ) ≠ Real.logb 10 0.03 - 2
  have hb := logb_003_neg
  intro h
  linarith

/-- Claim C5 (amended): the prepended padding knot of the cumulative delay
spline lies at abscissa `-2 + cumul_delay[1]`, where `cumul_delay[1]` (the
second entry of the cumulative array, the integral over the degenerate
interval `[0.03, 0.03]`) is `0` — so the abscissa is `-2` (the `ts[0] +=
cumul_delay[1]` adjustment modifies the abscissa, not the ordinate); the
padding knot's ordinate is `0`; and the two appended trailing knots pin the
cumulative value to exactly 1 at `log10(13.6)` and `log10(13.8)`. -/
theorem claim_C5_amended (qag : (ℝ → ℝ) → ℝ → ℝ → ℝ) (hq : QuadContract qag) :
    (initModel qag)._PopII_SNIa_delay_spline.xs.headI = -2 ∧
    (initModel qag)._PopII_SNIa_delay_spline.ys.headI = 0 ∧
    (initModel qag)._PopII_SNIa_delay_spline.ys[1]? = some 0 ∧
    (initModel qag)._PopII_SNIa_delay_spline.xs[28]? = some (Real.logb 10 13.6) ∧
    (initModel qag)._PopII_SNIa_delay_spline.ys[28]? = some 1 ∧
    (initModel qag)._PopII_SNIa_delay_spline.xs[29]? = some (Real.logb 10 13.8) ∧
    (initModel qag)._PopII_SNIa_delay_spline.ys[29]? = some 1 := by
  rw [initModel_delay_spline, create_xs, create_ys, delayTs_eq qag hq, delayCumul_eq qag]
  have hg0 : qag (delayNormed qag) 0.03
      ((10:ℝ) ^ (Real.logb 10 0.03 + 0.1 * ((0:ℕ):ℝ))) = 0 := by
    rw [hq, show (10:ℝ) ^ (Real.logb 10 0.03 + 0.1 * ((0:ℕ):ℝ)) = 0.03 by
      push_cast
      rw [mul_zero, add_zero, rpow10_logb_003], intervalIntegral.integral_same]
  refine ⟨rfl, rfl, ?_, getElem_cons_append_a (by simp), getElem_cons_append_a (by simp),
    getElem_cons_append_b (by simp), getElem_cons_append_b (by simp)⟩
  rw [show (27:ℕ) = 26 + 1 from rfl, List.range_succ_eq_map, List.map_cons,
    getElem_one_cons_cons]
  exact congrArg some hg0

/-- Witness for the amended claim C5: using the exact integrator. -/
theorem claim_C5_amended_witness :
    QuadContract intExact ∧
    (initModel intExact)._PopII_SNIa_delay_spline.xs.headI = -2 ∧
    (initModel intExact)._PopII_SNIa_delay_spline.ys.headI = 0 ∧
    (initModel intExact)._PopII_SNIa_delay_spline.ys[28]? = some 1 ∧
    (initModel intExact)._PopII_SNIa_delay_spline.ys[29]? = some 1 := by
  have hq : QuadContract intExact := fun f a b => rfl
  have h := claim_C5_amended intExact hq
  exact ⟨hq, h.1, h.2.1, h.2.2.2.2.1, h.2.2.2.2.2.2⟩

/-- Claim C6 counterexample: the prepended first knot of the cumulative PopIII
IMF spline does NOT lie at abscissa `log10(M_low) - 2 = log10(0.7) - 2`: the
source sets `PopIII_IMF_ms[0] = -2.` (a plain literal), and
`log10(0.7) - 2 ≠ -2` since `log10(0.7) ≠ 0`. -/
theorem claim_C6_counterexample :
    (initModel intExact)._PopIII_IMF_spline.xs.headI ≠ Real.logb 10 0.7 - 2 := by
  rw [initModel_popIII_spline, create_xs, popIIIMs_eq]
  show (-2:ℝ) ≠ Real.logb 10 0.7 - 2
  have hb := logb_07_neg
  intro h
  linarith

/-- Claim C6 (amended): the prepended first knot of the cumulative PopIII IMF
spline lies at abscissa `-2` (not `log10(M_low) - 2`) and holds as ordinate the
integral of the PopIII IMF from `0` to the upper mass bound `M_upp = 500` (the
full-population count), and the two appended trailing knots give the survival
value 0 at abscissa `log10(M_upp)` and at the knot above it (abscissa `3`). -/
theorem claim_C6_amended (qag : (ℝ → ℝ) → ℝ → ℝ → ℝ) (hq : QuadContract qag) :
    (initModel qag)._PopIII_IMF_spline.xs.headI = -2 ∧
    (initModel qag)._PopIII_IMF_spline.ys.headI = (∫ m in (0:ℝ)..500, popIII_IMF_fixed m) ∧
    (initModel qag)._PopIII_IMF_spline.xs[287]? = some (Real.logb 10 500) ∧
    (initModel qag)._PopIII_IMF_spline.ys[287]? = some 0 ∧
    (initModel qag)._PopIII_IMF_spline.xs[288]? = some 3 ∧
    (initModel qag)._PopIII_IMF_spline.ys[288]? = some 0 := by
  rw [initModel_popIII_spline, create_xs, create_ys, popIIIMs_eq, popIIIIMFs_eq qag]
  refine ⟨rfl, ?_, getElem_cons_append_a (by simp), getElem_cons_append_a (by simp),
    getElem_cons_append_b (by simp), getElem_cons_append_b (by simp)⟩
  show qag popIII_IMF_fixed 0 500 = _
  rw [hq]

/-- Witness for the amended claim C6: using the exact integrator. -/
theorem claim_C6_amended_witness :
    QuadContract intExact ∧
    (initModel intExact)._PopIII_IMF_spline.xs.headI = -2 ∧
    (initModel intExact)._PopIII_IMF_spline.ys.headI
      = (∫ m in (0:ℝ)..500, popIII_IMF_fixed m) ∧
    (initModel intExact)._PopIII_IMF_spline.ys[287]? = some 0 ∧
    (initModel intExact)._PopIII_IMF_spline.ys[288]? = some 0 := by
  have hq : QuadContract intExact := fun f a b => rfl
  have h := claim_C6_amended intExact hq
  exact ⟨hq, h.1, h.2.1, h.2.2.2.1, h.2.2.2.2.2⟩

end
